import Mathlib

/-!
Shallow embedding of the client-side code of the FRA Atlas repository:
  * the demo analysis script (`analyzeLocation`, `displayResults`),
  * the axios API client request interceptor,
  * the `useAuth` token store backed by `localStorage` under the key
    `"fra_token"`.

JavaScript numbers are modelled by `JNum`: either NaN or an exact rational.
All demo inputs are short decimal literals, which are exactly representable
as IEEE doubles and round-trip through the JS number formatter, so the
rational model is faithful on every value this development evaluates.
Infinities are outside the model (no claim mentions them).
-/

/-- A JavaScript number: NaN or a finite value, modelled exactly as a
rational. -/
inductive JNum where
  | nan : JNum
  | num (q : ℚ) : JNum
deriving DecidableEq

/-- Consume a maximal run of ASCII digits from the front of a character
list, returning the digits and the remainder. -/
def takeDigits : List Char → List Char × List Char
  | [] => ([], [])
  | c :: rest =>
    if c.isDigit then
      let (ds, r) := takeDigits rest
      (c :: ds, r)
    else ([], c :: rest)

/-- Numeric value of one ASCII digit. -/
def digitVal : Char → Nat
  | '0' => 0
  | '1' => 1
  | '2' => 2
  | '3' => 3
  | '4' => 4
  | '5' => 5
  | '6' => 6
  | '7' => 7
  | '8' => 8
  | '9' => 9
  | _ => 0

/-- Value of a digit string read most-significant first. -/
def digitsToNat (ds : List Char) : Nat :=
  ds.foldl (fun n c => n * 10 + digitVal c) 0

/-- Drop leading whitespace, as `parseFloat` does before scanning. -/
def skipWs : List Char → List Char
  | [] => []
  | c :: r => if c.isWhitespace then skipWs r else c :: r

/-- Scan an optional exponent part `e`/`E` followed by an optionally signed
digit run. Returns the exponent value and the remaining input; if no valid
exponent follows, nothing is consumed and the exponent is 0. -/
def scanExp (cs : List Char) : Int × List Char :=
  let (sgnNeg, cs1) :=
    match cs with
    | '-' :: r => (true, r)
    | '+' :: r => (false, r)
    | _ => (false, cs)
  let (ds, r) := takeDigits cs1
  if ds.isEmpty then (0, cs)
  else ((if sgnNeg then -(digitsToNat ds : Int) else (digitsToNat ds : Int)), r)

/-- Model of the JS builtin `parseFloat` on a character list: skip leading
whitespace, then read the longest prefix of the form
`[+-]? digits [. digits] [eE [+-] digits]`. If no digit is read the result
is NaN (the `Infinity` literals are outside the model). -/
def parseFloatCore (cs0 : List Char) : JNum :=
  let cs := skipWs cs0
  let (sgnNeg, cs1) :=
    match cs with
    | '-' :: r => (true, r)
    | '+' :: r => (false, r)
    | _ => (false, cs)
  let (ip, cs2) := takeDigits cs1
  let (fp, cs3) :=
    match cs2 with
    | '.' :: r => takeDigits r
    | _ => ([], cs2)
  if ip.isEmpty && fp.isEmpty then JNum.nan
  else
    let e0 :=
      match cs3 with
      | 'e' :: r => (scanExp r).1
      | 'E' :: r => (scanExp r).1
      | _ => 0
    let mant : Nat := digitsToNat ip * 10 ^ fp.length + digitsToNat fp
    let e : Int := e0 - fp.length
    let mag : ℚ :=
      if 0 ≤ e then (mant : ℚ) * 10 ^ e.toNat else (mant : ℚ) / 10 ^ (-e).toNat
    JNum.num (if sgnNeg then -mag else mag)

/-- `parseFloat` on a Lean string. -/
def parseFloat (s : String) : JNum := parseFloatCore s.data

/-- A JSON value, the shape of request and response bodies. Objects are
finite association lists; field lookup takes the first binding. -/
inductive Json where
  | null : Json
  | bool (b : Bool) : Json
  | num (q : ℚ) : Json
  | str (s : String) : Json
  | arr (xs : List Json) : Json
  | obj (fields : List (String × Json)) : Json

/-- Serialization of a JS number by `JSON.stringify`: NaN has no JSON
representation and is emitted as `null`; finite numbers are emitted as
numbers. -/
def jsonOfJNum : JNum → Json
  | JNum.nan => Json.null
  | JNum.num q => Json.num q

/-- Decimal digits of the fractional remainder `r / d`, with fuel. -/
def fracDigits : Nat → Nat → Nat → List Char
  | 0, _, _ => []
  | _, 0, _ => []
  | fuel + 1, r, d =>
    let r10 := r * 10
    Char.ofNat (48 + r10 / d) :: fracDigits fuel (r10 % d) d

/-- Model of JS `Number::toString` for finite values with a short decimal
expansion (the only numbers this development prints). -/
def ratToString (q : ℚ) : String :=
  let sgn := if q < 0 then "-" else ""
  let n := q.num.natAbs
  let d := q.den
  let ip := n / d
  let r := n % d
  sgn ++ toString ip ++ (if r = 0 then "" else "." ++ String.mk (fracDigits 20 r d))

/-- JS number `toString`, covering NaN. -/
def jnumToString : JNum → String
  | JNum.nan => "NaN"
  | JNum.num q => ratToString q

mutual

/-- JS `ToString` of a JSON value, as used by template-literal
interpolation: arrays stringify as their elements joined with commas
(`Array.prototype.toString`), plain objects as `[object Object]`. -/
def jsStringOfJson : Json → String
  | Json.null => "null"
  | Json.bool true => "true"
  | Json.bool false => "false"
  | Json.num q => ratToString q
  | Json.str s => s
  | Json.arr xs => jsStringOfArr xs
  | Json.obj _ => "[object Object]"

/-- Elements of an array joined with `,`; a `null` element joins as the
empty string, following `Array.prototype.join`. -/
def jsStringOfArr : List Json → String
  | [] => ""
  | [x] => jsStringOfElem x
  | x :: rest => jsStringOfElem x ++ "," ++ jsStringOfArr rest

/-- One array element under `join`: `null` becomes empty. -/
def jsStringOfElem : Json → String
  | Json.null => ""
  | j => jsStringOfJson j

end

/-!
## Token store (`useAuth.js`)

`localStorage` holds at most one value under the fixed key `"fra_token"`;
the store state is that value or `none` (the key is absent and
`getItem` returns the null sentinel). `localStorage.setItem` coerces its
second argument to a string, so `setToken` takes an arbitrary primitive
JS value and stores its string coercion.
-/

/-- The `localStorage` state at the fixed key `"fra_token"`: `none` when
the key is absent. -/
abbrev TokenStore := Option String

/-- A primitive JS value as passed to `setToken`. Objects and arrays are
outside the model (no claim mentions them). -/
inductive JSValue where
  | null : JSValue
  | undefined : JSValue
  | bool (b : Bool) : JSValue
  | num (n : JNum) : JSValue
  | str (s : String) : JSValue
deriving DecidableEq

/-- Whether a JS value is a string. -/
def JSValue.isStr : JSValue → Bool
  | JSValue.str _ => true
  | _ => false

/-- JS `ToString` coercion applied by `localStorage.setItem` to its value
argument. -/
def jsToString : JSValue → String
  | JSValue.null => "null"
  | JSValue.undefined => "undefined"
  | JSValue.bool true => "true"
  | JSValue.bool false => "false"
  | JSValue.num n => jnumToString n
  | JSValue.str s => s

/-- `setToken(token)`: `localStorage.setItem("fra_token", token)` —
overwrites any existing value with the string coercion of the argument. -/
def setToken (token : JSValue) (_ : TokenStore) : TokenStore :=
  some (jsToString token)

/-- `clearToken()`: `localStorage.removeItem("fra_token")`. -/
def clearToken (_ : TokenStore) : TokenStore := none

/-- `getToken()`: `localStorage.getItem("fra_token")`, the stored value or
the null sentinel. -/
def getToken (s : TokenStore) : Option String := s

/-- An operation applied to the token store. -/
inductive TokenOp where
  | set (v : JSValue) : TokenOp
  | clear : TokenOp
deriving DecidableEq

/-- Run a sequence of token-store operations from a starting state. -/
def runOps : List TokenOp → TokenStore → TokenStore
  | [], s => s
  | TokenOp.set v :: rest, s => runOps rest (setToken v s)
  | TokenOp.clear :: rest, s => runOps rest (clearToken s)

/-- Over the alphabet set/clear, "no `setToken` has occurred since the last
`clearToken` (or ever)" is exactly: the trace is empty or ends in a clear
— any operation after the last clear is a set. -/
def noSetSinceClear (ops : List TokenOp) : Bool :=
  match ops.getLast? with
  | some (TokenOp.set _) => false
  | _ => true

/-!
## API client (axios instance with request interceptor)
-/

/-- An axios request config: URL, method, optional JSON body, headers. -/
structure AxiosConfig where
  url : String
  method : String
  data : Option Json
  headers : List (String × String)

/-- First value bound to a header name. -/
def getHeader : List (String × String) → String → Option String
  | [], _ => none
  | (k2, v) :: rest, k => if k2 = k then some v else getHeader rest k

/-- Header assignment `config.headers.Name = value`: replace the existing
binding or append a new one. -/
def setHeader : List (String × String) → String → String → List (String × String)
  | [], k, v => [(k, v)]
  | (k2, v2) :: rest, k, v =>
    if k2 = k then (k, v) :: rest else (k2, v2) :: setHeader rest k v

/-- The request interceptor registered with `api.interceptors.request.use`:
read the token from `localStorage`; if it is truthy (a non-empty string),
set the `Authorization` header to `Bearer ` followed by the token;
return the config. -/
def requestInterceptor (store : TokenStore) (config : AxiosConfig) : AxiosConfig :=
  match getToken store with
  | some token =>
    if token = "" then config
    else
      { config with
        headers := setHeader config.headers "Authorization" ("Bearer " ++ token) }
  | none => config

/-!
## Analysis demo (`analyzeLocation` / `displayResults`)

The demo issues one `fetch` POST and renders the parsed JSON response into
the DOM element with id `results-container`. The DOM is modelled as the
`innerHTML` of that element, or `none` when the element is absent. Errors
thrown inside the `try` block are values of `JsError`; everything
`analyzeLocation` does is collected into an `AnalyzeResult` record.
-/

/-- A thrown JS error: a plain `Error` with a message, or a `TypeError`
raised by a property access or call on `undefined`/`null`. -/
inductive JsError where
  | error (msg : String) : JsError
  | typeError (msg : String) : JsError
deriving DecidableEq

/-- The DOM fragment the demo touches: the `innerHTML` of
`results-container`, or `none` when no such element exists. -/
abbrev Dom := Option String

/-- JS property access `x.k` where `x` may be `undefined` (`Option.none`).
Access on `undefined` or `null` throws a `TypeError`; on any other
non-object value the property is simply absent (`undefined`). -/
def getProp (x : Option Json) (k : String) : Except JsError (Option Json) :=
  match x with
  | none =>
    Except.error (JsError.typeError ("Cannot read properties of undefined (reading " ++ k ++ ")"))
  | some Json.null =>
    Except.error (JsError.typeError ("Cannot read properties of null (reading " ++ k ++ ")"))
  | some (Json.obj fields) => Except.ok (getField fields k)
  | some _ => Except.ok none
where
  /-- First binding of a field name in an object. -/
  getField : List (String × Json) → String → Option Json
  | [], _ => none
  | (k2, v) :: rest, k => if k2 = k then some v else getField rest k

/-- Template-literal interpolation of a possibly-undefined value. -/
def interp (x : Option Json) : String :=
  match x with
  | none => "undefined"
  | some j => jsStringOfJson j

/-- `x.map(action => ...<li>...).join('')` over the recommendations list:
calling `.map` on anything but an array throws a `TypeError`. -/
def mapJoinLi (x : Option Json) : Except JsError String :=
  match x with
  | none =>
    Except.error (JsError.typeError ("Cannot read properties of undefined (reading map)"))
  | some Json.null =>
    Except.error (JsError.typeError ("Cannot read properties of null (reading map)"))
  | some (Json.arr xs) =>
    Except.ok (String.join (xs.map (fun action => "<li>" ++ jsStringOfJson action ++ "</li>")))
  | some _ => Except.error (JsError.typeError ("map is not a function"))

/-- The template literal assigned to `resultsContainer.innerHTML`, with the
three interpolated holes filled in. -/
def resultsTemplate (suit score items : String) : String :=
  "\n            <h2>Analysis Results</h2>\n            <p>Overall Suitability: "
    ++ suit
    ++ "</p>\n            <p>Total Score: "
    ++ score
    ++ "</p>\n            <h3>Recommendations</h3>\n            <ul>\n                "
    ++ items
    ++ "\n            </ul>\n        "

/-- `displayResults(data)`: look up `results-container`; if absent, do
nothing; if present, build the results markup — reading
`data.fra_analysis.overall_suitability`, `data.fra_analysis.total_score`
and mapping over `data.recommendations.immediate_actions` — and assign it
to `innerHTML`. A `TypeError` raised while building the markup propagates
to the caller and leaves the DOM unchanged. -/
def displayResults (dom : Dom) (data : Json) : Except JsError Dom :=
  match dom with
  | none => Except.ok none
  | some _ => do
    let fa ← getProp (some data) "fra_analysis"
    let suit ← getProp fa "overall_suitability"
    let fa2 ← getProp (some data) "fra_analysis"
    let score ← getProp fa2 "total_score"
    let recs ← getProp (some data) "recommendations"
    let actions ← getProp recs "immediate_actions"
    let items ← mapJoinLi actions
    Except.ok (some (resultsTemplate (interp suit) (interp score) items))

/-- The fixed endpoint the demo posts to. -/
def API_URL : String := "http://127.0.0.1:5000/api/analyze"

/-- One HTTP request as dispatched by `fetch`; the body is the JSON value
produced by `JSON.stringify`. -/
structure HttpRequest where
  url : String
  method : String
  headers : List (String × String)
  body : Json

/-- The response the network returns to the demo's single `fetch`: a
status code and the parsed JSON body that `response.json()` yields. -/
structure FetchResponse where
  status : Nat
  body : Json

/-- `Response.ok`: status in the inclusive range 200–299. -/
def respOk (status : Nat) : Bool := 200 ≤ status && status ≤ 299

/-- The message prefix `console.error` logs in the `catch` block. -/
def fetchProblemMsg : String := "There was a problem with the fetch operation:"

/-- The message of the error thrown on a non-2xx status. -/
def httpErrorMessage (status : Nat) : String :=
  "HTTP error! status: " ++ toString status

/-- Everything observable `analyzeLocation` did: the requests dispatched,
`console.log` payloads, `console.error` entries (prefix and error value),
the final DOM, and any error that escaped the function. -/
structure AnalyzeResult where
  requests : List HttpRequest
  consoleLogs : List Json
  consoleErrors : List (String × JsError)
  dom : Dom
  uncaught : Option JsError

/-- `analyzeLocation(latitude, longitude, radius)`: coerce the three
inputs with `parseFloat`, POST the JSON payload
`{latitude, longitude, radius_km}` to `API_URL`, throw on a non-2xx
status, otherwise parse the body, log it, and render it with
`displayResults` — all inside one `try` whose `catch` logs any error to
the console. The network's response and the prior DOM are passed in
explicitly. -/
def analyzeLocation (latitude longitude radius : String)
    (resp : FetchResponse) (dom : Dom) : AnalyzeResult :=
  let payloadBody : Json := Json.obj
    [("latitude", jsonOfJNum (parseFloat latitude)),
     ("longitude", jsonOfJNum (parseFloat longitude)),
     ("radius_km", jsonOfJNum (parseFloat radius))]
  let req : HttpRequest :=
    { url := API_URL
      method := "POST"
      headers := [("Content-Type", "application/json")]
      body := payloadBody }
  if respOk resp.status then
    match displayResults dom resp.body with
    | Except.ok newDom =>
      { requests := [req], consoleLogs := [resp.body], consoleErrors := [],
        dom := newDom, uncaught := none }
    | Except.error e =>
      { requests := [req], consoleLogs := [resp.body],
        consoleErrors := [(fetchProblemMsg, e)], dom := dom, uncaught := none }
  else
    { requests := [req], consoleLogs := [],
      consoleErrors :=
        [(fetchProblemMsg, JsError.error (httpErrorMessage resp.status))],
      dom := dom, uncaught := none }

/-!
## Helper lemmas
-/

/-- Evaluation of `parseFloat` on the demo latitude literal. -/
lemma parseFloat_lat : parseFloat "23.3441" = JNum.num (23.3441 : ℚ) := by
  have h : "23.3441".data = ['2', '3', '.', '3', '4', '4', '1'] := rfl
  simp only [parseFloat, parseFloatCore, h]
  norm_num +decide [skipWs, takeDigits, digitsToNat, digitVal, scanExp, Char.isDigit,
    Char.isWhitespace, show ((4 : Int).toNat = 4) from rfl]

/-- Evaluation of `parseFloat` on the demo longitude literal. -/
lemma parseFloat_lng : parseFloat "85.3096" = JNum.num (85.3096 : ℚ) := by
  have h : "85.3096".data = ['8', '5', '.', '3', '0', '9', '6'] := rfl
  simp only [parseFloat, parseFloatCore, h]
  norm_num +decide [skipWs, takeDigits, digitsToNat, digitVal, scanExp, Char.isDigit,
    Char.isWhitespace, show ((4 : Int).toNat = 4) from rfl]

/-- Evaluation of `parseFloat` on the demo radius literal. -/
lemma parseFloat_rad : parseFloat "2.0" = JNum.num (2.0 : ℚ) := by
  have h : "2.0".data = ['2', '.', '0'] := rfl
  simp only [parseFloat, parseFloatCore, h]
  norm_num +decide [skipWs, takeDigits, digitsToNat, digitVal, scanExp, Char.isDigit,
    Char.isWhitespace, show ((1 : Int).toNat = 1) from rfl]

/-- `parseFloat` on a non-numeric string is NaN. -/
lemma parseFloat_abc : parseFloat "abc" = JNum.nan := by
  have h : "abc".data = ['a', 'b', 'c'] := rfl
  simp only [parseFloat, parseFloatCore, h]
  norm_num +decide [skipWs, takeDigits, digitsToNat, digitVal, scanExp, Char.isDigit,
    Char.isWhitespace]

/-- Whatever the response and DOM, `analyzeLocation` dispatches exactly the
one POST built from its coerced inputs. -/
lemma analyzeLocation_requests (lat lng rad : String) (resp : FetchResponse) (dom : Dom) :
    (analyzeLocation lat lng rad resp dom).requests =
      [{ url := API_URL, method := "POST",
         headers := [("Content-Type", "application/json")],
         body := Json.obj
           [("latitude", jsonOfJNum (parseFloat lat)),
            ("longitude", jsonOfJNum (parseFloat lng)),
            ("radius_km", jsonOfJNum (parseFloat rad))] }] := by
  simp only [analyzeLocation]
  split
  · split <;> rfl
  · rfl

/-- Reading back the header just set. -/
lemma getHeader_setHeader_self (hs : List (String × String)) (k v : String) :
    getHeader (setHeader hs k v) k = some v := by
  induction hs with
  | nil => simp [setHeader, getHeader]
  | cons hd tl ih =>
    obtain ⟨k2, v2⟩ := hd
    by_cases hk : k2 = k
    · simp [setHeader, getHeader, hk]
    · simp [setHeader, getHeader, hk, ih]

/-- Setting one header leaves every other header unchanged. -/
lemma getHeader_setHeader_other (hs : List (String × String)) (k k2 v : String)
    (h : k ≠ k2) : getHeader (setHeader hs k2 v) k = getHeader hs k := by
  induction hs with
  | nil => simp [setHeader, getHeader, Ne.symm h]
  | cons hd tl ih =>
    obtain ⟨k3, v3⟩ := hd
    by_cases hk : k3 = k2
    · subst hk
      simp [setHeader, getHeader, Ne.symm h]
    · simp [setHeader, getHeader, hk, ih]

/-- Running a trace of store operations is running them in sequence. -/
lemma runOps_append (l1 l2 : List TokenOp) (s : TokenStore) :
    runOps (l1 ++ l2) s = runOps l2 (runOps l1 s) := by
  induction l1 generalizing s with
  | nil => rfl
  | cons op rest ih => cases op <;> simp [runOps, ih]

/-- The store after a trace is decided by the trace's last operation. -/
lemma runOps_getLast (ops : List TokenOp) (s : TokenStore) :
    getToken (runOps ops s) =
      (match ops.getLast? with
       | none => getToken s
       | some (TokenOp.set v) => some (jsToString v)
       | some TokenOp.clear => none) := by
  induction ops using List.reverseRecOn with
  | nil => rfl
  | append_singleton rest op _ =>
    rw [runOps_append, List.getLast?_concat]
    cases op <;> rfl

/-!
## Claim theorems
-/

/-- Claim C1, amended: when the HTTP response is successful but rendering
the parsed body throws (e.g. a field accessed during rendering is
missing), the error is caught by the same try/catch that wraps the
network call — `displayResults(analysisData)` is called inside the `try`
block — and is logged; no error escapes `analyzeLocation` and the DOM is
unchanged. -/
theorem analyzeLocation_render_error_is_caught
    (lat lng rad : String) (resp : FetchResponse) (dom : Dom) (e : JsError)
    (hok : respOk resp.status = true)
    (hthrow : displayResults dom resp.body = Except.error e) :
    (analyzeLocation lat lng rad resp dom).uncaught = none ∧
    (analyzeLocation lat lng rad resp dom).consoleErrors = [(fetchProblemMsg, e)] ∧
    (analyzeLocation lat lng rad resp dom).dom = dom := by
  simp [analyzeLocation, hok, hthrow]

/-- Witness for C1: a 200 response whose body is `{}` makes the render
step throw, and the error is caught and logged. -/
theorem analyzeLocation_render_error_is_caught_witness :
    respOk 200 = true ∧
    displayResults (some "old") (Json.obj []) =
      Except.error
        (JsError.typeError "Cannot read properties of undefined (reading overall_suitability)") ∧
    ((analyzeLocation "1" "2" "3" ⟨200, Json.obj []⟩ (some "old")).uncaught = none ∧
     (analyzeLocation "1" "2" "3" ⟨200, Json.obj []⟩ (some "old")).consoleErrors =
       [(fetchProblemMsg,
         JsError.typeError "Cannot read properties of undefined (reading overall_suitability)")] ∧
     (analyzeLocation "1" "2" "3" ⟨200, Json.obj []⟩ (some "old")).dom = some "old") :=
  ⟨rfl, rfl,
    analyzeLocation_render_error_is_caught "1" "2" "3" ⟨200, Json.obj []⟩ (some "old")
      (JsError.typeError "Cannot read properties of undefined (reading overall_suitability)")
      rfl rfl⟩

/-- Counterexample to C1 as stated: on a 200 response with body `{}` and a
present container, the render step does throw, yet nothing escapes
`analyzeLocation` as an uncaught error — the error is caught and logged by
the catch block that the claim says covers only the network call. -/
theorem analyzeLocation_render_error_uncaught_counterexample :
    displayResults (some "") (Json.obj []) =
      Except.error
        (JsError.typeError "Cannot read properties of undefined (reading overall_suitability)") ∧
    (analyzeLocation "23.3441" "85.3096" "2.0" ⟨200, Json.obj []⟩ (some "")).uncaught = none ∧
    (analyzeLocation "23.3441" "85.3096" "2.0" ⟨200, Json.obj []⟩ (some "")).consoleErrors =
      [(fetchProblemMsg,
        JsError.typeError "Cannot read properties of undefined (reading overall_suitability)")] :=
  ⟨rfl, rfl, rfl⟩

/-- Claim C2: when the stored token is a truthy string, the interceptor
sets `Authorization` to exactly `Bearer ` followed by the token; when no
token is stored, the `Authorization` header stays absent. -/
theorem requestInterceptor_bearer_header :
    (∀ (t : String) (config : AxiosConfig), t ≠ "" →
      getHeader (requestInterceptor (some t) config).headers "Authorization" =
        some ("Bearer " ++ t)) ∧
    (∀ config : AxiosConfig,
      getHeader config.headers "Authorization" = none →
      getHeader (requestInterceptor none config).headers "Authorization" = none) := by
  constructor
  · intro t config ht
    simp [requestInterceptor, getToken, ht, getHeader_setHeader_self]
  · intro config hnone
    simpa [requestInterceptor, getToken] using hnone

/-- Witness for C2 at a concrete token and config. -/
theorem requestInterceptor_bearer_header_witness :
    ("tok" : String) ≠ "" ∧
    getHeader (requestInterceptor (some "tok")
        ⟨"/claims", "get", none, []⟩).headers "Authorization" = some ("Bearer " ++ "tok") ∧
    getHeader ([] : List (String × String)) "Authorization" = none ∧
    getHeader (requestInterceptor none ⟨"/claims", "get", none, []⟩).headers "Authorization" =
      none :=
  ⟨by decide,
    requestInterceptor_bearer_header.1 "tok" ⟨"/claims", "get", none, []⟩ (by decide),
    rfl,
    requestInterceptor_bearer_header.2 ⟨"/claims", "get", none, []⟩ rfl⟩

/-- Claim C3: for every non-empty string T, `setToken(T)` followed by
`getToken()` returns exactly T. -/
theorem setToken_getToken_roundtrip (T : String) (s : TokenStore) (_h : T ≠ "") :
    getToken (setToken (JSValue.str T) s) = some T := rfl

/-- Witness for C3 at a concrete token. -/
theorem setToken_getToken_roundtrip_witness :
    ("tok123" : String) ≠ "" ∧ getToken (setToken (JSValue.str "tok123") none) = some "tok123" :=
  ⟨by decide, setToken_getToken_roundtrip "tok123" none (by decide)⟩

/-- Claim C4, settled for the serializer the code uses
(`JSON.stringify`): `analyzeLocation("abc", "85.3096", "2.0")` coerces the
latitude to NaN and serialization succeeds, emitting the `latitude` field
as `null` in the POST body. -/
theorem analyzeLocation_nan_latitude_null (resp : FetchResponse) (dom : Dom) :
    (analyzeLocation "abc" "85.3096" "2.0" resp dom).requests =
      [{ url := API_URL, method := "POST",
         headers := [("Content-Type", "application/json")],
         body := Json.obj
           [("latitude", Json.null),
            ("longitude", Json.num (85.3096 : ℚ)),
            ("radius_km", Json.num (2.0 : ℚ))] }] := by
  rw [analyzeLocation_requests, parseFloat_abc, parseFloat_lng, parseFloat_rad]
  rfl

/-- Claim C5: on a non-2xx status the error carrying the status code is
caught inside `analyzeLocation` and logged; the DOM is untouched, nothing
propagates to the caller, and exactly one request was issued (no retry). -/
theorem analyzeLocation_non2xx_logged_only
    (lat lng rad : String) (resp : FetchResponse) (dom : Dom)
    (h : respOk resp.status = false) :
    (analyzeLocation lat lng rad resp dom).consoleErrors =
      [(fetchProblemMsg, JsError.error (httpErrorMessage resp.status))] ∧
    (analyzeLocation lat lng rad resp dom).dom = dom ∧
    (analyzeLocation lat lng rad resp dom).uncaught = none ∧
    (analyzeLocation lat lng rad resp dom).requests.length = 1 := by
  simp [analyzeLocation, h]

/-- Witness for C5 at a concrete 500 response. -/
theorem analyzeLocation_non2xx_logged_only_witness :
    respOk 500 = false ∧
    ((analyzeLocation "a" "b" "c" ⟨500, Json.null⟩ (some "keep")).consoleErrors =
       [(fetchProblemMsg, JsError.error (httpErrorMessage 500))] ∧
     (analyzeLocation "a" "b" "c" ⟨500, Json.null⟩ (some "keep")).dom = some "keep" ∧
     (analyzeLocation "a" "b" "c" ⟨500, Json.null⟩ (some "keep")).uncaught = none ∧
     (analyzeLocation "a" "b" "c" ⟨500, Json.null⟩ (some "keep")).requests.length = 1) :=
  ⟨rfl, analyzeLocation_non2xx_logged_only "a" "b" "c" ⟨500, Json.null⟩ (some "keep") rfl⟩

/-- Claim C6: the demo call coerces its three string inputs with
`parseFloat` and issues exactly one POST to the fixed endpoint whose JSON
body is `{latitude: 23.3441, longitude: 85.3096, radius_km: 2.0}`. -/
theorem analyzeLocation_demo_post_body (resp : FetchResponse) (dom : Dom) :
    (analyzeLocation "23.3441" "85.3096" "2.0" resp dom).requests =
      [{ url := API_URL, method := "POST",
         headers := [("Content-Type", "application/json")],
         body := Json.obj
           [("latitude", Json.num (23.3441 : ℚ)),
            ("longitude", Json.num (85.3096 : ℚ)),
            ("radius_km", Json.num (2.0 : ℚ))] }] := by
  rw [analyzeLocation_requests, parseFloat_lat, parseFloat_lng, parseFloat_rad]
  rfl

/-- Claim C7: `clearToken()` always succeeds, afterwards `getToken()`
returns the null sentinel whatever the prior state, and clearing is
idempotent. -/
theorem clearToken_idempotent_absent (s : TokenStore) :
    getToken (clearToken s) = none ∧ clearToken (clearToken s) = clearToken s :=
  ⟨rfl, rfl⟩

/-- Claim C8: when no `results-container` element exists, `displayResults`
is a no-op for every input: the DOM stays absent and no error is raised. -/
theorem displayResults_no_container_noop (data : Json) :
    displayResults none data = Except.ok none := rfl

/-- Claim C9: `setToken` stores the string coercion of any non-string
argument, so `getToken` then returns that coercion (for `null`, the string
`"null"`), never the absent sentinel; and over any operation trace from
the empty store, `getToken` returns the sentinel exactly when no set has
occurred since the last clear (or ever). -/
theorem setToken_coerces_nonstring :
    (∀ (v : JSValue) (s : TokenStore), v.isStr = false →
      getToken (setToken v s) = some (jsToString v) ∧ getToken (setToken v s) ≠ none) ∧
    (∀ ops : List TokenOp,
      getToken (runOps ops none) = none ↔ noSetSinceClear ops = true) := by
  constructor
  · intro v s _
    exact ⟨rfl, by simp [setToken, getToken]⟩
  · intro ops
    rw [runOps_getLast]
    cases hl : ops.getLast? with
    | none => simp [noSetSinceClear, hl, getToken]
    | some op => cases op <;> simp [noSetSinceClear, hl]

/-- Witness for C9: storing `null` yields the string `"null"`. -/
theorem setToken_coerces_nonstring_witness :
    JSValue.null.isStr = false ∧
    (getToken (setToken JSValue.null none) = some "null" ∧
     getToken (setToken JSValue.null none) ≠ none) :=
  ⟨rfl, setToken_coerces_nonstring.1 JSValue.null none rfl⟩

/-- Claim C10: the interceptor changes at most the `Authorization` header —
URL, method, body and every other header are untouched — and with no
stored token the config is returned entirely unmodified. -/
theorem requestInterceptor_frame (store : TokenStore) (config : AxiosConfig) :
    (requestInterceptor store config).url = config.url ∧
    (requestInterceptor store config).method = config.method ∧
    (requestInterceptor store config).data = config.data ∧
    (∀ k : String, k ≠ "Authorization" →
      getHeader (requestInterceptor store config).headers k = getHeader config.headers k) ∧
    (store = none → requestInterceptor store config = config) := by
  cases store with
  | none => exact ⟨rfl, rfl, rfl, fun _ _ => rfl, fun _ => rfl⟩
  | some t =>
    by_cases ht : t = ""
    · subst ht
      exact ⟨rfl, rfl, rfl, fun _ _ => rfl, fun hn => by cases hn⟩
    · refine ⟨?_, ?_, ?_, ?_, ?_⟩
      · simp [requestInterceptor, getToken, ht]
      · simp [requestInterceptor, getToken, ht]
      · simp [requestInterceptor, getToken, ht]
      · intro k hk
        simp [requestInterceptor, getToken, ht, getHeader_setHeader_other _ _ _ _ hk]
      · intro hn
        cases hn

/-- Witness for C10: a non-`Authorization` header survives interception,
and with no token the config comes back unchanged. -/
theorem requestInterceptor_frame_witness :
    ("X-Trace" : String) ≠ "Authorization" ∧
    getHeader (requestInterceptor (some "t")
        ⟨"/claims", "get", none, [("X-Trace", "1")]⟩).headers "X-Trace" =
      getHeader ([("X-Trace", "1")] : List (String × String)) "X-Trace" ∧
    requestInterceptor none ⟨"/claims", "get", none, [("X-Trace", "1")]⟩ =
      ⟨"/claims", "get", none, [("X-Trace", "1")]⟩ :=
  ⟨by decide,
    (requestInterceptor_frame (some "t") ⟨"/claims", "get", none, [("X-Trace", "1")]⟩).2.2.2.1
      "X-Trace" (by decide),
    (requestInterceptor_frame none ⟨"/claims", "get", none, [("X-Trace", "1")]⟩).2.2.2.2 rfl⟩
